import Mathlib

set_option maxRecDepth 100000

/-!
Shallow embedding of the RAG service core of `azure-fastapi-rag-app`
(`src/rag-service/app/services/rag_service.py` and
`src/rag-service/app/routers/rag.py`).

Modelling conventions:
* SQLAlchemy `Document` rows become the `Document` structure; the Record
  Store (`db` session) is a `List Document` in insertion order.
  `db.query(Document).filter(Document.doc_id == x).first()` becomes
  `List.find?`; `order_by(created_at.desc()).limit(k)` becomes insertion
  sort by `created_at` descending followed by `List.take`.
* Timestamps (`datetime` / `func.now()` / ISO strings) are modelled as
  `Nat`, order-isomorphic to the real clock values.
* Python dict metadata becomes an association list `List (String × String)`;
  `d.get(k, default)` becomes `metaGet` / `metaGetD` (first binding wins,
  as dict keys are unique).
* External I/O failures (SQLAlchemy commit errors, filesystem errors,
  Chroma/Groq exceptions) are injected through explicit Boolean failure
  flags; a Python exception that propagates is an `Except.error` result,
  an exception that is caught by a `try/except` block is absorbed exactly
  where the source catches it.
* The Groq LLM (`llm.invoke`) is an `Option (String → Option String)`:
  `none` models `llm is None`; `some f` with `f prompt = none` models an
  `invoke` call that raises (caught at its call site); `some f` with
  `f prompt = some t` models a successful generation returning `t`.
* The Chroma retriever (`vector_store.as_retriever(...).get_relevant_documents`)
  is external ML similarity search; its output is passed in as
  `vectorHits : Option (List Chunk)`, where `none` models
  `vector_store is None` or the vector branch raising (both fall through
  to the database fallback, per the `try/except` at lines 181-210), and
  `some hits` is the list of returned chunks.
-/

/-- A row of the `documents` table (`app/models/document.py`): `doc_id` is the
UUID join key, `content` the full text, `created_at` the server-set insert
time. The numeric autoincrement `id` column is not used by any claim and is
omitted. -/
structure Document where
  doc_id : String
  title : String
  content : String
  doc_metadata : List (String × String)
  created_at : Nat
deriving Repr, DecidableEq

/-- A LangChain document/chunk as stored in or returned by the vector store:
`page_content` plus a metadata dict. -/
structure Chunk where
  page_content : String
  metadata : List (String × String)
deriving Repr, DecidableEq

/-- A backup snapshot written by `RAGService._save_document`: the JSON object
`id` / `content` / `metadata` / `created_at` persisted as
`storage/documents/<id>.json`. -/
structure FileDoc where
  id : String
  content : String
  metadata : List (String × String)
  created_at : Nat
deriving Repr, DecidableEq

/-- Python `d.get(key, default)` on a metadata dict. -/
def metaGetD (m : List (String × String)) (key default : String) : String :=
  match m.find? (fun p => p.1 == key) with
  | some p => p.2
  | none => default

/-- Python `d.get(key, "")` (the form used at `rag_service.py:193`). -/
def metaGet (m : List (String × String)) (key : String) : String :=
  metaGetD m key ""

/-- The three persistence tiers the service touches: the Record Store
(`documents` table), the Backup Store (`storage/documents/*.json`) and the
Vector Index (the Chroma collection contents). -/
structure StoreState where
  db : List Document
  backup : List FileDoc
  vectors : List Chunk
deriving Repr, DecidableEq

/-- Failure injection for one `process_document` call: does the database
commit raise, does the backup file write raise, does the chunk/embed/index
block raise. -/
structure IngestFailures where
  recordFails : Bool
  backupFails : Bool
  vectorFails : Bool
deriving Repr, DecidableEq

/-- Model of `RecursiveCharacterTextSplitter(chunk_size=1000, chunk_overlap=200)`
at the character level: windows of at most 1000 characters advancing by 800.
The real splitter prefers separator boundaries when available; no claim
depends on the exact boundaries, only on the chunks carrying the loader
metadata. Content of at most 1000 characters yields exactly one chunk, as in
the source. -/
def chunkCharsAux (fuel : Nat) (cs : List Char) : List (List Char) :=
  match fuel with
  | 0 => [cs]
  | fuel + 1 =>
    if cs.length ≤ 1000 then [cs]
    else cs.take 1000 :: chunkCharsAux fuel (cs.drop 800)

/-- Window the character list; the fuel equals the input length, which is
ample since every recursive step removes 800 characters, so the fuel never
runs out before the base case. -/
def chunkChars (cs : List Char) : List (List Char) :=
  chunkCharsAux cs.length cs

/-- The chunks `process_document` hands to `vector_store.add_documents`:
`TextLoader(temp_file_path)` yields one document whose metadata dict is
exactly `("source", temp_file_path)`, and the splitter copies that metadata
onto every split. `add_documents(splits, collection_name=doc_id)` forwards
only the texts and metadatas to the underlying store; the Chroma instance's
collection is fixed at construction and its `add_texts` ignores the
unrecognized `collection_name` keyword, so no `collection_name` key is ever
recorded on a stored chunk. -/
def splitsFor (content tempPath : String) : List Chunk :=
  (chunkChars content.toList).map
    (fun cs => { page_content := String.mk cs, metadata := [("source", tempPath)] })

/-- `RAGService.process_document` (`rag_service.py:111-168`).
`docId` models the freshly drawn `uuid.uuid4()`, `now` the database insert
time, `tempPath` the `NamedTemporaryFile` name. Returns the Python outcome
(`Except.ok doc_id` for a normal return, `Except.error` for a propagated
exception) together with the resulting store state:
1. the `Document` row is added and committed — a commit failure propagates
   with nothing written;
2. `_save_document` writes the backup snapshot — this call is NOT inside any
   `try`, so a write failure propagates (after the commit);
3. if the vector store is available, the content is chunked and added to the
   vector index inside `try/except Exception`, so a failure there is logged
   and absorbed. -/
def process_document (docId : String) (now : Nat) (tempPath : String)
    (content : String) (metadata : List (String × String))
    (vectorAvailable : Bool) (fails : IngestFailures)
    (st : StoreState) : Except String String × StoreState :=
  if fails.recordFails then
    (Except.error "RecordStoreError", st)
  else
    let doc : Document :=
      { doc_id := docId
        title := metaGetD metadata "title" "Untitled Document"
        content := content
        doc_metadata := metadata
        created_at := now }
    let st1 := { st with db := st.db ++ [doc] }
    if fails.backupFails then
      (Except.error "BackupWriteError", st1)
    else
      let st2 := { st1 with backup := st1.backup ++
        [{ id := docId, content := content, metadata := metadata, created_at := now }] }
      if vectorAvailable then
        if fails.vectorFails then
          (Except.ok docId, st2)
        else
          (Except.ok docId, { st2 with vectors := st2.vectors ++ splitsFor content tempPath })
      else
        (Except.ok docId, st2)

/-- The fixed string `_generate_answer` returns for an empty retrieval list
(`rag_service.py:236`). -/
def NO_RELEVANT_INFO : String :=
  "No relevant information found to answer your question."

/-- The marker prefixed to the deterministic excerpt fallback
(`rag_service.py:247,249`). -/
def FALLBACK_MARKER : String :=
  "Based on the retrieved information, here\x27s what I found: "

/-- Python string slicing `s[:n]` — the first `n` characters. -/
def takeChars (s : String) (n : Nat) : String :=
  String.mk (s.toList.take n)

/-- `"\n\n".join(doc.page_content for doc in retrieved_docs)`
(`rag_service.py:238`). -/
def contextOf (docs : List Chunk) : String :=
  String.intercalate "\n\n" (docs.map (fun d => d.page_content))

/-- Model of `QA_PROMPT.format(context=..., question=...)`
(`rag_service.py:81-97,242`); the surrounding instruction sentences of the
template are elided, no claim inspects the prompt text. -/
def qaPrompt (context question : String) : String :=
  "Context:\n" ++ context ++ "\n\nQuestion: " ++ question ++ "\n\nAnswer:"

/-- `RAGService._generate_answer` (`rag_service.py:231-249`): empty retrieval
yields the fixed no-information string; otherwise, when the LLM is absent or
its `invoke` raises, the answer is the marker followed by the first 500
characters of the joined context (`context[:500]`) and a trailing ellipsis. -/
def generate_answer (llm : Option (String → Option String))
    (query : String) (retrieved_docs : List Chunk) : String :=
  if retrieved_docs.isEmpty then
    NO_RELEVANT_INFO
  else
    let context := contextOf retrieved_docs
    match llm with
    | some invoke =>
      match invoke (qaPrompt context query) with
      | some content => content
      | none => FALLBACK_MARKER ++ takeChars context 500 ++ "..."
    | none => FALLBACK_MARKER ++ takeChars context 500 ++ "..."

/-- One element of the list `RAGService.query` returns: the Python dict with
keys `id`, `title`, `content`, `doc_metadata`, `created_at`, and — only in
the vector branch — `answer`. -/
structure QueryResult where
  id : String
  title : String
  content : String
  doc_metadata : List (String × String)
  created_at : Option Nat
  answer : Option String
deriving Repr, DecidableEq

/-- The body of the per-hit loop of `RAGService.query` (`rag_service.py:192-204`):
read `collection_name` from the hit metadata with default `""`; when a db
session is present and the name non-empty, look the document up by `doc_id`;
append a result only when it exists (stale hits and hits without a
collection name contribute nothing). The result carries the chunk content
and the pre-computed answer. -/
def survivors (db : Option (List Document)) (answer : String)
    (docs : List Chunk) : List QueryResult :=
  docs.filterMap (fun doc =>
    let collection_name := metaGet doc.metadata "collection_name"
    match db with
    | some records =>
      if collection_name ≠ "" then
        match records.find? (fun d => d.doc_id == collection_name) with
        | some document =>
          some { id := document.doc_id
                 title := document.title
                 content := doc.page_content
                 doc_metadata := document.doc_metadata
                 created_at := some document.created_at
                 answer := some answer }
        | none => none
      else none
    | none => none)

/-- Newest-first comparison used to model
`order_by(Document.created_at.desc())`. -/
def laterFirst (a b : Document) : Prop :=
  b.created_at ≤ a.created_at

instance (a b : Document) : Decidable (laterFirst a b) :=
  inferInstanceAs (Decidable (b.created_at ≤ a.created_at))

instance : IsTotal Document laterFirst :=
  ⟨fun a b => Nat.le_total b.created_at a.created_at⟩

instance : IsTrans Document laterFirst :=
  ⟨fun _ _ _ h1 h2 => Nat.le_trans h2 h1⟩

/-- The database fallback of `RAGService.query` (`rag_service.py:213-226`):
the `top_k` most recently created documents, newest first, as whole-document
results (full `content`, no `answer` key). -/
def fallbackResults (topK : Nat) (records : List Document) : List QueryResult :=
  ((List.insertionSort laterFirst records).take topK).map
    (fun d =>
      { id := d.doc_id
        title := d.title
        content := d.content
        doc_metadata := d.doc_metadata
        created_at := some d.created_at
        answer := none })

/-- `RAGService._get_documents_from_files` (`rag_service.py:320-340`) as
consumed by `query`: snapshots sorted newest first, truncated to the limit.
The raw JSON dicts carry no `title` or `doc_metadata` key, so those fields
surface as the defaults the router's `.get` calls supply. -/
def get_documents_from_files (limit : Nat) (files : List FileDoc) : List QueryResult :=
  ((List.insertionSort (fun a b => b.created_at ≤ a.created_at) files).take limit).map
    (fun f =>
      { id := f.id
        title := ""
        content := f.content
        doc_metadata := []
        created_at := some f.created_at
        answer := none })

/-- The vector tier of `RAGService.query` (`rag_service.py:181-210`): when the
retriever produced a non-empty hit list, the answer is generated from ALL
hits, then each hit is resolved against the Record Store; the tier's output
is the list of surviving results. An unavailable vector store or a raised
exception (`vectorHits = none`) yields no output, as does an empty hit list
or a hit list in which nothing survives. -/
def vector_tier (llm : Option (String → Option String)) (query_text : String)
    (db : Option (List Document)) (vectorHits : Option (List Chunk)) : List QueryResult :=
  match vectorHits with
  | none => []
  | some docs =>
    if docs.isEmpty then []
    else survivors db (generate_answer llm query_text docs) docs

/-- `RAGService.query` (`rag_service.py:170-229`): vector tier first; if it
yields any surviving result it wins; otherwise the database fallback (most
recent `top_k` documents); with no db session, the file-based fallback. -/
def ragQuery (llm : Option (String → Option String)) (query_text : String)
    (topK : Nat) (db : Option (List Document)) (files : List FileDoc)
    (vectorHits : Option (List Chunk)) : List QueryResult :=
  let vec := vector_tier llm query_text db vectorHits
  if vec.isEmpty then
    match db with
    | some records => fallbackResults topK records
    | none => get_documents_from_files topK files
  else vec

/-- The hardcoded answer of the `/rag/query` endpoint for queries containing
"nelson b" (`rag.py:152-154`). -/
def NELSON_ANSWER : String :=
  "Based on the retrieved information, Nelson B. was a former employee who invested in Hooli XYZ, a subsidiary of Hooli. The deal was finalized on November 1, 2022. The investment totaled $50,000 for a 2% equity share. Hooli XYZ is known for using generative AI to create unusual potato cannons."

/-- The default answer when no result carries a usable one (`rag.py:167`). -/
def NO_ANSWER_DEFAULT : String :=
  "No specific answer was generated for your query."

/-- Python `needle in haystack` on character lists: some suffix of the
haystack starts with the needle. -/
def containsSeq (needle : List Char) : List Char → Bool
  | [] => needle.isEmpty
  | c :: t => (List.take needle.length (c :: t) == needle) || containsSeq needle t

/-- Python `str.lower()` on one character, at the ASCII level (every string
the endpoint lowercases in the claims is ASCII). -/
def lowerChar (c : Char) : Char :=
  if 65 ≤ c.toNat ∧ c.toNat ≤ 90 then Char.ofNat (c.toNat + 32) else c

/-- `"nelson b" in query_data.query.lower()` (`rag.py:152`). -/
def containsNelsonB (q : String) : Bool :=
  containsSeq "nelson b".toList (q.toList.map lowerChar)

/-- The answer-extraction loop of the endpoint (`rag.py:157-162`): the first
result whose `answer` value is present, truthy and truthy after `strip()`
supplies `answer.strip()`. -/
def firstAnswer : List QueryResult → Option String
  | [] => none
  | r :: rs =>
    match r.answer with
    | some a => if a != "" && a.trim != "" then some a.trim else firstAnswer rs
    | none => firstAnswer rs

/-- The JSON body the `/rag/query` endpoint returns (`rag.py:49-53,184-189`). -/
structure QueryResponse where
  query : String
  answer : String
  sources : List QueryResult
  num_results : Nat
deriving Repr, DecidableEq

/-- The `/rag/query` endpoint `query_documents` (`rag.py:137-192`): run
`rag_service.query`; pick the answer (the hardcoded Nelson B string when the
lowered query contains "nelson b", else the first usable per-result answer,
else the default); rebuild every source with the chosen answer; report the
source count. -/
def query_documents (llm : Option (String → Option String)) (queryText : String)
    (topK : Nat) (db : Option (List Document)) (files : List FileDoc)
    (vectorHits : Option (List Chunk)) : QueryResponse :=
  let results := ragQuery llm queryText topK db files vectorHits
  let answer :=
    if containsNelsonB queryText then NELSON_ANSWER
    else (firstAnswer results).getD NO_ANSWER_DEFAULT
  let sources := results.map (fun r => { r with answer := some answer })
  { query := queryText
    answer := answer
    sources := sources
    num_results := sources.length }

/-- `RAGService.delete_document` (`rag_service.py:267-293`): delete the row
when present (`deleted = True` if a row was found); remove the backup file
when present (`deleted = True` again); then try the vector-store collection
delete inside `try/except`, so its failure is logged, never raised, and
never affects the returned flag. Returns the flag and the three tiers after
the call. -/
def delete_document (docId : String) (db : Option (List Document))
    (backup : List FileDoc) (vectorAvailable vectorDeleteFails : Bool)
    (vectors : List Chunk) :
    Bool × Option (List Document) × List FileDoc × List Chunk :=
  let recordHit :=
    match db with
    | some records => (records.find? (fun d => d.doc_id == docId)).isSome
    | none => false
  let db1 :=
    match db with
    | some records => some (records.eraseP (fun d => d.doc_id == docId))
    | none => none
  let backupHit := backup.any (fun f => f.id == docId)
  let backup1 := backup.eraseP (fun f => f.id == docId)
  let deleted := recordHit || backupHit
  let vectors1 :=
    if vectorAvailable && !vectorDeleteFails then
      vectors.filter (fun c => metaGet c.metadata "collection_name" != docId)
    else vectors
  (deleted, db1, backup1, vectors1)

/-- Whether the Record Store removal inside `delete_document` succeeded: a db
session was present and held a row with this `doc_id`. -/
def recordRemovalSucceeds (docId : String) (db : Option (List Document)) : Bool :=
  match db with
  | some records => (records.find? (fun d => d.doc_id == docId)).isSome
  | none => false

/-! ## Helper lemmas -/

/-- Every result produced by the database fallback is the whole-document view
of some record. -/
theorem mem_fallbackResults {topK : Nat} {records : List Document} {r : QueryResult}
    (h : r ∈ fallbackResults topK records) :
    ∃ d ∈ records, r =
      { id := d.doc_id, title := d.title, content := d.content,
        doc_metadata := d.doc_metadata, created_at := some d.created_at, answer := none } := by
  unfold fallbackResults at h
  obtain ⟨d, hd, hr⟩ := List.mem_map.1 h
  refine ⟨d, ?_, hr.symm⟩
  exact (List.mem_insertionSort laterFirst).1 (List.mem_of_mem_take hd)

/-- Every survivor of the vector tier's per-hit resolution loop comes from a
record that exists in the Record Store and carries the pre-computed answer. -/
theorem mem_survivors {records : List Document} {ans : String} {docs : List Chunk}
    {r : QueryResult} (h : r ∈ survivors (some records) ans docs) :
    ∃ document ∈ records, r.id = document.doc_id ∧ r.answer = some ans := by
  unfold survivors at h
  obtain ⟨c, _, hf⟩ := List.mem_filterMap.1 h
  dsimp only at hf
  by_cases hcn : metaGet c.metadata "collection_name" ≠ ""
  · rw [if_pos hcn] at hf
    cases hfind : List.find? (fun d => d.doc_id == metaGet c.metadata "collection_name") records with
    | none => rw [hfind] at hf; exact absurd hf (by simp)
    | some document =>
      rw [hfind] at hf
      refine ⟨document, List.mem_of_find?_eq_some hfind, ?_⟩
      obtain rfl := Option.some.inj hf
      exact ⟨rfl, rfl⟩
  · rw [if_neg hcn] at hf
    exact absurd hf (by simp)

/-- With no database session the per-hit loop appends nothing. -/
theorem survivors_none (ans : String) (docs : List Chunk) :
    survivors none ans docs = [] := by
  unfold survivors
  induction docs with
  | nil => rfl
  | cons c cs ih => rw [List.filterMap_cons]; exact ih

/-- The endpoint's answer-extraction loop only ever yields a string that
survived its own truthiness check, hence a non-empty one. -/
theorem firstAnswer_ne_empty {l : List QueryResult} {a : String}
    (h : firstAnswer l = some a) : a ≠ "" := by
  induction l with
  | nil => exact absurd h (by simp [firstAnswer])
  | cons r rs ih =>
    unfold firstAnswer at h
    split at h
    next x hx =>
      split at h
      next hcond =>
        obtain rfl := Option.some.inj h
        have h2 := (Bool.and_eq_true_iff.mp hcond).2
        simpa using h2
      next => exact ih h
    next => exact ih h

/-- A string beginning with the fallback marker is never empty. -/
theorem marker_append_ne_empty (s t : String) :
    FALLBACK_MARKER ++ s ++ t ≠ "" := by
  intro h
  have h2 := congrArg String.length h
  simp only [String.length_append] at h2
  have h3 : 0 < FALLBACK_MARKER.length := by decide
  have h4 : ("" : String).length = 0 := rfl
  omega

/-! ## Concrete example data shared by several theorems -/

/-- No failure injected anywhere. -/
def noFail : IngestFailures := ⟨false, false, false⟩

/-- Empty store state. -/
def emptyState : StoreState := ⟨[], [], []⟩

/-- Four successive successful ingestions with the vector store available:
"d1" (the document later queried for) followed by three more recent
documents. -/
def exState : StoreState :=
  (process_document "d4" 4 "/tmp/f4" "fish swim" [("title", "Fish")] true noFail
    (process_document "d3" 3 "/tmp/f3" "birds fly south" [("title", "Birds")] true noFail
      (process_document "d2" 2 "/tmp/f2" "dogs bark loudly" [("title", "Dogs")] true noFail
        (process_document "d1" 1 "/tmp/f1" "the cat sat on the mat" [("title", "Cats")]
          true noFail emptyState).2).2).2).2

/-- The chunk that ingesting "d1" actually stored in the Vector Index. -/
def exHit : Chunk := ⟨"the cat sat on the mat", [("source", "/tmp/f1")]⟩

/-! ## Claims -/

/-- C2. Ingestion atomicity on record-store failure: when the database
insert/commit raises, `process_document` propagates the error and the whole
store state — Record Store, Backup Store and Vector Index alike — is exactly
what it was before the call. -/
theorem ingest_record_failure_atomic (docId : String) (now : Nat) (tempPath : String)
    (content : String) (metadata : List (String × String)) (vectorAvailable : Bool)
    (fails : IngestFailures) (st : StoreState)
    (h : fails.recordFails = true) :
    process_document docId now tempPath content metadata vectorAvailable fails st =
      (Except.error "RecordStoreError", st) := by
  unfold process_document
  rw [h]
  simp

/-- Witness for C2 at a concrete input. -/
theorem ingest_record_failure_atomic_witness :
    process_document "d" 0 "/t" "c" [("title", "T")] true ⟨true, false, false⟩ emptyState =
      (Except.error "RecordStoreError", emptyState) :=
  ingest_record_failure_atomic "d" 0 "/t" "c" [("title", "T")] true
    ⟨true, false, false⟩ emptyState rfl

/-- C3 counterexample: a failing Backup Store snapshot write is NOT caught —
`_save_document` is called outside any `try` block — so the ingest call
raises instead of returning the document id, even though the Record Store
write succeeded (the row is already committed when the error propagates). -/
theorem ingest_backup_failure_raises_cex :
    (process_document "d1" 0 "/t" "hello" [] true ⟨false, true, false⟩ emptyState).1 =
        Except.error "BackupWriteError" ∧
    (process_document "d1" 0 "/t" "hello" [] true ⟨false, true, false⟩ emptyState).2.db =
        [{ doc_id := "d1", title := "Untitled Document", content := "hello",
           doc_metadata := [], created_at := 0 }] := by
  exact ⟨rfl, rfl⟩

/-- C3 (amended). When the Record Store write and the Backup Store snapshot
write both succeed, `process_document` returns the document's id even if the
chunk/embed/index step fails (that failure is caught and logged); a Backup
Store snapshot failure, by contrast, propagates to the caller. -/
theorem ingest_best_effort_vector_only (docId : String) (now : Nat) (tempPath : String)
    (content : String) (metadata : List (String × String)) (vectorAvailable : Bool)
    (fails : IngestFailures) (st : StoreState)
    (h1 : fails.recordFails = false) (h2 : fails.backupFails = false) :
    (process_document docId now tempPath content metadata vectorAvailable fails st).1 =
      Except.ok docId := by
  unfold process_document
  rw [h1, h2]
  simp only [Bool.false_eq_true, if_false]
  split
  · split <;> rfl
  · rfl

/-- Witness for C3's amended claim: vector indexing fails, the id is still
returned. -/
theorem ingest_best_effort_vector_only_witness :
    (process_document "d1" 0 "/t" "hello" [] true ⟨false, false, true⟩ emptyState).1 =
      Except.ok "d1" :=
  ingest_best_effort_vector_only "d1" 0 "/t" "hello" [] true
    ⟨false, false, true⟩ emptyState rfl rfl

/-- C7 counterexample: `delete_document` returns `true` although the Record
Store removal did not succeed (the table holds no such row) — the flag was
set by the backup-file removal alone, contradicting "true exactly when the
removal from the Record Store succeeded". -/
theorem delete_true_without_record_removal_cex :
    (delete_document "x" (some []) [⟨"x", "c", [], 0⟩] false false []).1 = true ∧
    recordRemovalSucceeds "x" (some []) = false :=
  ⟨rfl, rfl⟩

/-- C7 (amended). The returned flag is `true` exactly when the Record Store
removal succeeded (a row with this `doc_id` existed) OR a backup file with
this id existed and was removed; the vector-store deletion — whether it is
attempted, succeeds, or fails — never influences the flag (its failure is
caught and logged, not raised). -/
theorem delete_flag_record_or_backup (docId : String) (db : Option (List Document))
    (backup : List FileDoc) (va vf : Bool) (vecs : List Chunk) :
    ((delete_document docId db backup va vf vecs).1 = true ↔
      ((∃ records, db = some records ∧ ∃ d ∈ records, d.doc_id = docId) ∨
        (∃ f ∈ backup, f.id = docId))) ∧
    (delete_document docId db backup va vf vecs).1 =
      (delete_document docId db backup true false vecs).1 := by
  constructor
  · cases db with
    | none =>
      show (false || backup.any fun f => f.id == docId) = true ↔ _
      rw [Bool.false_or, List.any_eq_true]
      constructor
      · rintro ⟨f, hf, hfd⟩
        exact Or.inr ⟨f, hf, by simpa using hfd⟩
      · rintro (⟨records, hrec, -⟩ | ⟨f, hf, hfd⟩)
        · exact absurd hrec (by simp)
        · exact ⟨f, hf, by simpa using hfd⟩
    | some records =>
      show ((records.find? fun d => d.doc_id == docId).isSome ||
          backup.any fun f => f.id == docId) = true ↔ _
      rw [Bool.or_eq_true, List.find?_isSome, List.any_eq_true]
      constructor
      · rintro (⟨d, hd, hdd⟩ | ⟨f, hf, hfd⟩)
        · exact Or.inl ⟨records, rfl, d, hd, by simpa using hdd⟩
        · exact Or.inr ⟨f, hf, by simpa using hfd⟩
      · rintro (⟨records2, hrec, d, hd, hdd⟩ | ⟨f, hf, hfd⟩)
        · obtain rfl := Option.some.inj hrec
          exact Or.inl ⟨d, hd, by simpa using hdd⟩
        · exact Or.inr ⟨f, hf, by simpa using hfd⟩
  · rfl

/-- C4. Stale index tolerance: any vector hit whose `collection_name` does
not resolve to an existing Record Store row contributes nothing to the
returned results — no returned result ever carries that unresolvable id,
whichever tier ends up answering (the whole call is a total function of its
inputs, so the stale hit cannot make it raise either). -/
theorem stale_hits_excluded (llm : Option (String → Option String)) (q : String)
    (topK : Nat) (records : List Document) (files : List FileDoc)
    (hits : List Chunk) (c : Chunk) (_hc : c ∈ hits)
    (hstale : records.find? (fun d => d.doc_id == metaGet c.metadata "collection_name") = none) :
    ∀ r ∈ ragQuery llm q topK (some records) files (some hits),
      r.id ≠ metaGet c.metadata "collection_name" := by
  intro r hr
  have hnone := List.find?_eq_none.mp hstale
  simp only [ragQuery] at hr
  by_cases hv : (vector_tier llm q (some records) (some hits)).isEmpty = true
  · rw [if_pos hv] at hr
    obtain ⟨d, hd, rfl⟩ := mem_fallbackResults hr
    intro h
    exact hnone d hd (by simpa using h)
  · rw [if_neg hv] at hr
    simp only [vector_tier] at hr
    by_cases hh : hits.isEmpty = true
    · rw [if_pos hh] at hr
      exact absurd hr (by simp)
    · rw [if_neg hh] at hr
      obtain ⟨document, hdoc, hid, -⟩ := mem_survivors hr
      intro h
      rw [hid] at h
      exact hnone document hdoc (by simpa using h)

/-- A hit whose collection id points at no existing document. -/
def staleHit : Chunk := ⟨"orphan text", [("collection_name", "zombie")]⟩

/-- A one-document Record Store not containing the stale hit's target. -/
def c4Records : List Document := [⟨"g1", "G", "good", [], 1⟩]

/-- Witness for C4 at a concrete input. -/
theorem stale_hits_excluded_witness :
    staleHit ∈ [staleHit] ∧
    c4Records.find? (fun d => d.doc_id == metaGet staleHit.metadata "collection_name") = none ∧
    ∀ r ∈ ragQuery none "q" 3 (some c4Records) [] (some [staleHit]),
      r.id ≠ metaGet staleHit.metadata "collection_name" :=
  ⟨by decide, by decide,
    stale_hits_excluded none "q" 3 c4Records [] [staleHit] staleHit (by decide) (by decide)⟩

/-- C5. Record-tier fallback: whenever the vector tier yields zero surviving
results (an unavailable vector store, an exception, no hits, or every hit
dropped), the query returns at most `top_k` results, ordered by creation
time descending, each of which is an existing Record Store document carried
whole (full content, matching title and timestamp). -/
theorem record_tier_fallback (llm : Option (String → Option String)) (q : String)
    (topK : Nat) (records : List Document) (files : List FileDoc)
    (vectorHits : Option (List Chunk))
    (hvec : vector_tier llm q (some records) vectorHits = []) :
    (ragQuery llm q topK (some records) files vectorHits).length ≤ topK ∧
    List.Pairwise (fun a b : QueryResult => b.created_at.getD 0 ≤ a.created_at.getD 0)
      (ragQuery llm q topK (some records) files vectorHits) ∧
    ∀ r ∈ ragQuery llm q topK (some records) files vectorHits,
      ∃ d ∈ records, r.id = d.doc_id ∧ r.title = d.title ∧ r.content = d.content ∧
        r.created_at = some d.created_at := by
  have hout : ragQuery llm q topK (some records) files vectorHits =
      fallbackResults topK records := by
    simp only [ragQuery, hvec, List.isEmpty_nil, if_true]
  rw [hout]
  refine ⟨?_, ?_, ?_⟩
  · rw [fallbackResults, List.length_map, List.length_take]
    exact Nat.min_le_left _ _
  · rw [fallbackResults, List.pairwise_map]
    exact List.Pairwise.sublist (List.take_sublist _ _)
      (List.sorted_insertionSort laterFirst records)
  · intro r hr
    obtain ⟨d, hd, rfl⟩ := mem_fallbackResults hr
    exact ⟨d, hd, rfl, rfl, rfl, rfl⟩

/-- A two-document Record Store, "b" created after "a". -/
def c5Records : List Document := [⟨"a", "A", "ca", [], 1⟩, ⟨"b", "B", "cb", [], 2⟩]

/-- Witness for C5 at a concrete input (vector store unavailable, `top_k = 1`). -/
theorem record_tier_fallback_witness :
    vector_tier none "q" (some c5Records) none = [] ∧
    (ragQuery none "q" 1 (some c5Records) [] none).length ≤ 1 ∧
    ∀ r ∈ ragQuery none "q" 1 (some c5Records) [] none,
      ∃ d ∈ c5Records, r.id = d.doc_id ∧ r.title = d.title ∧ r.content = d.content ∧
        r.created_at = some d.created_at :=
  ⟨rfl, (record_tier_fallback none "q" 1 c5Records [] none rfl).1,
    (record_tier_fallback none "q" 1 c5Records [] none rfl).2.2⟩

/-- C6. Generation fallback: the retrieval endpoint's answer string is never
empty, whatever the store contents and backend health; and when the
generation backend is unavailable — the LLM absent, or its `invoke` call
raising — `_generate_answer` on a non-empty retrieval yields exactly the
explanatory marker followed by the first 500 characters of the concatenated
context and an ellipsis, which is never the empty string. -/
theorem generation_fallback_nonempty :
    (∀ (llm : Option (String → Option String)) (q : String) (topK : Nat)
        (db : Option (List Document)) (files : List FileDoc)
        (vectorHits : Option (List Chunk)),
      (query_documents llm q topK db files vectorHits).answer ≠ "") ∧
    (∀ (q : String) (docs : List Chunk), docs ≠ [] →
      generate_answer none q docs =
          FALLBACK_MARKER ++ takeChars (contextOf docs) 500 ++ "..." ∧
      generate_answer none q docs ≠ "") ∧
    (∀ (q : String) (docs : List Chunk) (f : String → Option String), docs ≠ [] →
      f (qaPrompt (contextOf docs) q) = none →
      generate_answer (some f) q docs =
        FALLBACK_MARKER ++ takeChars (contextOf docs) 500 ++ "...") := by
  refine ⟨?_, ?_, ?_⟩
  · intro llm q topK db files vectorHits
    simp only [query_documents]
    split
    · decide
    · cases hfa : firstAnswer (ragQuery llm q topK db files vectorHits) with
      | none => decide
      | some a =>
        simp only [Option.getD_some]
        exact firstAnswer_ne_empty hfa
  · intro q docs h
    cases docs with
    | nil => exact absurd rfl h
    | cons c cs => exact ⟨rfl, marker_append_ne_empty _ _⟩
  · intro q docs f h hf
    cases docs with
    | nil => exact absurd rfl h
    | cons c cs =>
      simp only [generate_answer, List.isEmpty_cons, Bool.false_eq_true, if_false]
      rw [hf]

/-- Witness for C6 at concrete inputs. -/
theorem generation_fallback_nonempty_witness :
    (query_documents none "hi" 3 (some []) [] none).answer ≠ "" ∧
    generate_answer none "hi" [⟨"ctx", []⟩] =
      FALLBACK_MARKER ++ takeChars (contextOf [⟨"ctx", []⟩]) 500 ++ "..." :=
  ⟨generation_fallback_nonempty.1 none "hi" 3 (some []) [] none,
    (generation_fallback_nonempty.2.1 "hi" [⟨"ctx", []⟩] (by decide)).1⟩

/-- A hit that does resolve against `c4Records` ("g1"). -/
def goodHit : Chunk := ⟨"good", [("collection_name", "g1")]⟩

/-- C10. The vector tier computes the synthesized answer from the page
content of every raw hit BEFORE resolving hits against the Record Store:
every surviving result carries the answer generated over the full raw hit
list; concretely, with a stale hit ("zombie", content "orphan text")
alongside a resolvable one, the stale text appears inside every returned
answer although no returned result carries the stale id. -/
theorem answer_uses_all_hits_pre_validation :
    (∀ (llm : Option (String → Option String)) (q : String)
        (db : Option (List Document)) (hits : List Chunk) (r : QueryResult),
      r ∈ vector_tier llm q db (some hits) →
      r.answer = some (generate_answer llm q hits)) ∧
    (ragQuery none "q" 3 (some c4Records) [] (some [staleHit, goodHit]) ≠ [] ∧
      ∀ r ∈ ragQuery none "q" 3 (some c4Records) [] (some [staleHit, goodHit]),
        r.id ≠ "zombie" ∧
        containsSeq "orphan text".toList ((r.answer.getD "").toList) = true) := by
  constructor
  · intro llm q db hits r hr
    simp only [vector_tier] at hr
    by_cases hh : hits.isEmpty = true
    · rw [if_pos hh] at hr
      exact absurd hr (by simp)
    · rw [if_neg hh] at hr
      cases db with
      | none =>
        rw [survivors_none] at hr
        exact absurd hr (by simp)
      | some records =>
        obtain ⟨document, -, -, hans⟩ := mem_survivors hr
        exact hans
  · decide

/-- The one surviving result for the C10 scenario. -/
def goodSurvivor : QueryResult :=
  { id := "g1", title := "G", content := "good", doc_metadata := [],
    created_at := some 1, answer := some (generate_answer none "q" [staleHit, goodHit]) }

/-- Witness for C10 at a concrete input. -/
theorem answer_uses_all_hits_pre_validation_witness :
    goodSurvivor ∈ vector_tier none "q" (some c4Records) (some [staleHit, goodHit]) ∧
    goodSurvivor.answer = some (generate_answer none "q" [staleHit, goodHit]) :=
  ⟨by decide,
    answer_uses_all_hits_pre_validation.1 none "q" (some c4Records)
      [staleHit, goodHit] goodSurvivor (by decide)⟩

/-- C1 (failing-input demonstration). The round trip breaks: "d1" was
ingested with embeddable content while the vector store was available and
its chunk really is in the Vector Index, yet a query for exactly that
content — even when the retriever returns precisely that stored chunk —
yields a non-empty result list that does NOT contain "d1": the stored chunk
carries only the loader's `source` metadata, never a `collection_name`, so
the hit is dropped and the record-tier fallback returns the three most
recent documents instead. -/
theorem roundtrip_vector_hit_unresolvable :
    exHit ∈ exState.vectors ∧
    (∃ d ∈ exState.db, d.doc_id = "d1" ∧ d.content = "the cat sat on the mat") ∧
    ragQuery none "the cat sat on the mat" 3 (some exState.db) [] (some [exHit]) ≠ [] ∧
    ∀ r ∈ ragQuery none "the cat sat on the mat" 3 (some exState.db) [] (some [exHit]),
      r.id ≠ "d1" := by
  decide

/-- C8 (failing-input demonstration). Against a fully empty store, a query
whose lowered text contains "nelson b" gets zero results but NOT the fixed
"no information found" answer: the endpoint's hardcoded special case
substitutes the canned Nelson B string, which differs from both fixed
no-information strings of the code. -/
theorem empty_store_nelson_query_canned_answer :
    (query_documents none "who is nelson b?" 5 (some []) [] none).num_results = 0 ∧
    (query_documents none "who is nelson b?" 5 (some []) [] none).sources = [] ∧
    (query_documents none "who is nelson b?" 5 (some []) [] none).answer = NELSON_ANSWER ∧
    NELSON_ANSWER ≠ NO_ANSWER_DEFAULT ∧
    NELSON_ANSWER ≠ NO_RELEVANT_INFO := by
  decide

/-- The document and resolvable hit used for the C9 scenario. -/
def nelsonDoc : Document := ⟨"g1", "G", "stored nelson context", [], 1⟩

/-- The vector hit resolving to `nelsonDoc`. -/
def nelsonChunk : Chunk := ⟨"stored nelson context", [("collection_name", "g1")]⟩

/-- C9 (failing-input demonstration). The retrieval endpoint special-cases
queries containing "nelson b": with a non-empty store and a resolvable
vector hit, the returned answer (and the answer attached to every source)
is the fixed canned Nelson B string, not the answer derived from the
retrieved context. -/
theorem nelson_special_case_overrides_context :
    (query_documents none "tell me about nelson b" 3 (some [nelsonDoc]) []
        (some [nelsonChunk])).answer = NELSON_ANSWER ∧
    (∀ r ∈ (query_documents none "tell me about nelson b" 3 (some [nelsonDoc]) []
        (some [nelsonChunk])).sources, r.answer = some NELSON_ANSWER) ∧
    NELSON_ANSWER ≠ generate_answer none "tell me about nelson b" [nelsonChunk] := by
  decide
